import Mathlib

/-!
Verification of the wei-daemon process supervisor core.

This file is a shallow embedding of the Rust sources of the repository:

* `src/exception_handler.rs` — the restart-policy engine
  (`ThreadRestartPolicy`, `ThreadRestartManager`) and the process-wide
  unhandled-exception filter;
* `src/thread_manager.rs` — the worker registry and its supervision loop;
* `src/process_manager.rs` — the child-process monitor;
* `src/signal_handler.rs` — the console signal handler and shutdown
  escalation;
* `src/config_parser.rs` — the line-oriented configuration parser.

Machine integers (`u32`) are modelled as `Nat` with explicit reduction
modulo `2^32` at the points where the Rust code can wrap; `f64` durations
and multipliers are modelled as rationals, so the floating-point formulas
are represented by exact arithmetic of the same shape.  OS effects (thread
spawning, child spawning, sleeping, joining, clock reads) are modelled by
explicit parameters carrying the outcome of the effect.
-/

namespace WeiDaemon

/-! ## Character-list infrastructure

Rust string primitives used by `config_parser.rs` (`str::trim`,
`str::split(':')`, `str::split_whitespace`, `str::starts_with`,
`str::contains`, `str::parse::<u32>`) modelled over `List Char`. -/

/-- Rust `char::is_whitespace`, restricted to the ASCII whitespace that the
daemon configuration files use. -/
def isWS (c : Char) : Bool := c.isWhitespace

/-- Rust `str::trim_start`. -/
def trimLeft (l : List Char) : List Char := l.dropWhile isWS

/-- Rust `str::trim_end`. -/
def trimRight (l : List Char) : List Char := (l.reverse.dropWhile isWS).reverse

/-- Rust `str::trim`. -/
def trim (l : List Char) : List Char := trimRight (trimLeft l)

/-- Rust `str::split` with a predicate: splits on every separator and keeps
empty fields, so `"a:" → ["a", ""]` and `"" → [""]`. -/
def splitPred (p : Char → Bool) : List Char → List (List Char)
  | [] => [[]]
  | x :: xs =>
    if p x then [] :: splitPred p xs
    else
      match splitPred p xs with
      | [] => [[x]]
      | w :: ws => (x :: w) :: ws

/-- Rust `str::split(c)`. -/
def splitChar (c : Char) (l : List Char) : List (List Char) :=
  splitPred (fun x => decide (x = c)) l

/-- Rust `str::split_whitespace`: whitespace-separated words, empty words
dropped. -/
def splitWS (l : List Char) : List (List Char) :=
  (splitPred isWS l).filter (fun w => !w.isEmpty)

/-- Rust `str::contains(c)`. -/
def containsChar (c : Char) (l : List Char) : Bool :=
  l.any (fun x => decide (x = c))

/-- Rust `str::starts_with` for a literal pattern (first argument). -/
def startsWithChars : List Char → List Char → Bool
  | [], _ => true
  | _ :: _, [] => false
  | p :: ps, c :: cs => decide (p = c) && startsWithChars ps cs

/-- Decimal digit value of a character, if it is a digit. -/
def digitVal (c : Char) : Option Nat :=
  if '0' ≤ c ∧ c ≤ '9' then some (c.toNat - '0'.toNat) else none

/-- Accumulating loop of the decimal parser. -/
def parseDigits : List Char → Nat → Option Nat
  | [], acc => some acc
  | c :: cs, acc =>
    match digitVal c with
    | some d => parseDigits cs (acc * 10 + d)
    | none => none

/-- Rust `str::parse::<u32>`: optional leading `+`, at least one digit, and
the value must fit in 32 bits. -/
def parseU32 (s : List Char) : Option Nat :=
  let s := match s with
    | '+' :: rest => rest
    | other => other
  match s with
  | [] => none
  | _ =>
    match parseDigits s 0 with
    | some v => if v < 4294967296 then some v else none
    | none => none

/-! ## Association-list maps

`HashMap` state in the sources is modelled by association lists; `insertAL`
is `HashMap::insert` (replace the binding for the key). -/

/-- `HashMap::insert`: replace any existing binding of the key. -/
def insertAL {κ α : Type} [DecidableEq κ] (m : List (κ × α)) (k : κ) (v : α) :
    List (κ × α) :=
  (k, v) :: m.filter (fun p => !(decide (p.1 = k)))

/-! ## Restart-policy engine (`src/exception_handler.rs`) -/

/-- `ThreadRestartPolicy` from `exception_handler.rs`.  Durations are in
seconds, `backoff_multiplier` is the `f64` field; both are modelled as
rationals. -/
structure ThreadRestartPolicy where
  max_restarts : Nat
  restart_delay : ℚ
  backoff_multiplier : ℚ
  max_restart_delay : ℚ
deriving DecidableEq

/-- `impl Default for ThreadRestartPolicy`. -/
def ThreadRestartPolicy.default : ThreadRestartPolicy :=
  { max_restarts := 5
    restart_delay := 1
    backoff_multiplier := 2
    max_restart_delay := 60 }

/-- `ThreadRestartManager` from `exception_handler.rs`.  Timestamps are
UNIX seconds. -/
structure ThreadRestartManager where
  restart_counts : List (String × Nat)
  last_restart_times : List (String × Nat)
  policy : ThreadRestartPolicy
deriving DecidableEq

/-- `restart_counts.get(name).copied().unwrap_or(0)`. -/
def getCount (counts : List (String × Nat)) (name : String) : Nat :=
  (counts.lookup name).getD 0

/-- `ThreadRestartManager::can_restart`. -/
def ThreadRestartManager.can_restart (mgr : ThreadRestartManager)
    (thread_name : String) : Bool :=
  decide (getCount mgr.restart_counts thread_name < mgr.policy.max_restarts)

/-- `ThreadRestartManager::get_restart_count`. -/
def ThreadRestartManager.get_restart_count (mgr : ThreadRestartManager)
    (thread_name : String) : Nat :=
  getCount mgr.restart_counts thread_name

/-- Rust `u32 as i32`: reinterpret the low 32 bits as a signed value. -/
def toI32 (x : Nat) : Int :=
  if x % 4294967296 < 2147483648 then ((x % 4294967296 : Nat) : Int)
  else ((x % 4294967296 : Nat) : Int) - 4294967296

/-- Wrapping `u32` subtraction (release-profile semantics of `a - b`). -/
def u32sub (a b : Nat) : Nat :=
  (a % 4294967296 + 4294967296 - b % 4294967296) % 4294967296

/-- `ThreadRestartManager::record_restart`: bump the counter for the
thread, remember the time `now`, and return the exponential-backoff delay
`min(base_delay * multiplier^(new_count-1), max_restart_delay)` in
seconds.  The `u32` increment and the `as i32` cast of the exponent follow
the wrapping machine semantics. -/
def ThreadRestartManager.record_restart (mgr : ThreadRestartManager)
    (thread_name : String) (now : Nat) : ThreadRestartManager × ℚ :=
  let current_count := getCount mgr.restart_counts thread_name
  let new_count := (current_count + 1) % 4294967296
  let mgr2 : ThreadRestartManager :=
    { mgr with
      restart_counts := insertAL mgr.restart_counts thread_name new_count
      last_restart_times := insertAL mgr.last_restart_times thread_name now }
  let base_delay := mgr.policy.restart_delay
  let multiplier := mgr.policy.backoff_multiplier ^ toI32 (u32sub new_count 1)
  let delay_secs := min (base_delay * multiplier) mgr.policy.max_restart_delay
  (mgr2, delay_secs)

/-! ## Worker registry and supervision loop (`src/thread_manager.rs`) -/

/-- `ThreadStatus` from `thread_manager.rs`. -/
inductive ThreadStatus where
  | Created
  | Running
  | Stopped
  | Error
  | HealthCheck
  | Restarting
  | Failed
deriving DecidableEq

/-- The registry-visible part of `ThreadInfo`: id, name, status, the
worker-local shutdown flag, and whether the join handle is still held
(`handle.is_some()`). -/
structure ThreadRec where
  id : Nat
  name : String
  status : ThreadStatus
  shutdown_signal : Bool
  has_handle : Bool
deriving DecidableEq

/-- Result of one iteration of the restart-enabled supervision loop spawned
by `ThreadManager::create_thread_with_restart`: the status stored for the
worker, the updated restart manager, and whether the loop `continue`s (the
body is invoked again). -/
structure SuperviseStep where
  status : ThreadStatus
  mgr : ThreadRestartManager
  reinvoke : Bool
deriving DecidableEq

/-- One iteration of the supervision loop in
`ThreadManager::create_thread_with_restart` (restart-enabled branch).

`result` is the outcome of `safe_thread_wrapper` around the body;
`flagAtDecision` is the value of the shutdown flag read when deciding to
restart and `flagAfterSleep` the value re-read after sleeping for the
backoff delay; `now` is the clock read inside `record_restart`.

On `Ok` the loop breaks with no status write.  On `Err` it consults
`can_restart`; if restart is allowed and the flag is clear it records the
restart, sets the status to `Restarting`, sleeps, re-checks the flag
(breaking if it is now set) and otherwise loops; if the flag was set it
breaks with no status write; if the budget is exhausted it sets `Failed`
and breaks. -/
def superviseIter (thread_name : String) (st : ThreadStatus)
    (mgr : ThreadRestartManager) (result : Except String Unit)
    (flagAtDecision flagAfterSleep : Bool) (now : Nat) : SuperviseStep :=
  match result with
  | .ok _ => ⟨st, mgr, false⟩
  | .error _ =>
    let should_restart := mgr.can_restart thread_name
    if should_restart && !flagAtDecision then
      let rec_result := mgr.record_restart thread_name now
      if flagAfterSleep then ⟨ThreadStatus.Restarting, rec_result.1, false⟩
      else ⟨ThreadStatus.Restarting, rec_result.1, true⟩
    else if flagAtDecision then ⟨st, mgr, false⟩
    else ⟨ThreadStatus.Failed, mgr, false⟩

/-- The registry state of `ThreadManager`: the id-keyed map of
`ThreadInfo` records, the id counter, and the shared restart manager. -/
structure ThreadManagerState where
  threads : List (Nat × ThreadRec)
  next_thread_id : Nat
  restart_mgr : ThreadRestartManager
deriving DecidableEq

/-- Registry effect of `ThreadManager::create_thread_with_restart`: fetch
a fresh id from the `u64` counter and insert the record in state `Created`
with a clear shutdown flag.  `spawnOk` is the outcome of the OS thread
spawn; no look-up of the requested name is performed. -/
def create_thread_with_restart (st : ThreadManagerState) (name : String)
    (spawnOk : Bool) : Except String (ThreadManagerState × Nat) :=
  let thread_id := st.next_thread_id % 18446744073709551616
  if spawnOk then
    .ok
      ({ st with
          threads := insertAL st.threads thread_id
            ⟨thread_id, name, ThreadStatus.Created, false, true⟩
          next_thread_id := (st.next_thread_id + 1) % 18446744073709551616 },
        thread_id)
  else .error "failed to spawn thread"

/-- `ThreadManager::stop_thread`: look the id up; signal shutdown, write
status `Stopped`, take the join handle, then join (the join outcome is the
parameter `joinOk`).  The state updates happen before the join, so they
survive a failed join. -/
def stop_thread (threads : List (Nat × ThreadRec)) (tid : Nat)
    (joinOk : Bool) : List (Nat × ThreadRec) × Except String Unit :=
  match threads.lookup tid with
  | none => (threads, .error "thread id does not exist")
  | some info =>
    let info2 : ThreadRec :=
      { info with shutdown_signal := true, status := ThreadStatus.Stopped }
    if info.has_handle then
      (insertAL threads tid { info2 with has_handle := false },
        if joinOk then .ok () else .error "failed waiting for thread")
    else (insertAL threads tid info2, .ok ())

/-! ## Child-process monitor (`src/process_manager.rs`) -/

/-- `ProcessStatus` from `process_manager.rs`. -/
inductive ProcessStatus where
  | Running
  | Stopped
deriving DecidableEq

/-- `RestartPolicy` from `process_manager.rs`. -/
inductive RestartPolicy where
  | Limited (max_restarts : Nat)
  | Infinite
deriving DecidableEq

/-- `ProcessInfo` from `process_manager.rs`; the live `Child` handle is
modelled by its pid. -/
structure ProcessInfo where
  name : String
  command : String
  args : List String
  status : ProcessStatus
  pid : Option Nat
  child_handle : Option Nat
  restart_policy : RestartPolicy
  restart_count : Nat
deriving DecidableEq

/-- The restart decision in `ProcessManager::monitor_process` after a
child exit: `Infinite` always restarts and leaves the counter alone; a
`Limited` policy first increments `restart_count` (wrapping `u32`) and
then tests the incremented counter against `max_restarts`.  Returns the
decision and the counter value that is stored back. -/
def monitorRestartDecision (policy : RestartPolicy) (restart_count : Nat) :
    Bool × Nat :=
  match policy with
  | .Infinite => (true, restart_count)
  | .Limited max_restarts =>
    let new_count := (restart_count + 1) % 4294967296
    (decide (new_count < max_restarts), new_count)

/-- Registry effect of `ProcessManager::start_process`: reject only when a
process of the same name exists **and** its status is `Running`; otherwise
spawn (outcome `spawnResult`, carrying the new pid on success) and insert
a fresh `Running` record with `restart_count = 0`, replacing any previous
record of that name.  No shutdown flag is consulted. -/
def start_process (procs : List (String × ProcessInfo)) (name command : String)
    (args : List String) (restart_policy : RestartPolicy)
    (spawnResult : Option Nat) : Except String (List (String × ProcessInfo)) :=
  let rejected :=
    match procs.lookup name with
    | some existing => decide (existing.status = ProcessStatus.Running)
    | none => false
  if rejected then .error "process is already running"
  else
    match spawnResult with
    | some pid =>
      .ok (insertAL procs name
        ⟨name, command, args, ProcessStatus.Running, some pid, some pid,
          restart_policy, 0⟩)
    | none => .error "failed to start process"

/-- What one monitor iteration did about spawning a replacement child. -/
inductive SpawnEvent where
  | spawnAttempted (succeeded : Bool)
  | noSpawn
deriving DecidableEq

/-- Result of one iteration of the `ProcessManager::monitor_process` loop. -/
structure MonitorStep where
  procs : List (String × ProcessInfo)
  spawn : SpawnEvent
  continueLoop : Bool
deriving DecidableEq

/-- One iteration of the loop in `ProcessManager::monitor_process`, the
body that `start_process` hands to the thread manager as
`move |_| { Self::monitor_process(...) }` — the closure discards the
shutdown signal it is given, and `shutdown_signal` is that discarded
value.  `exitStatus` is the `try_wait` observation for this iteration
(`none`: child still running) and `spawnResult` the OS outcome of a
respawn attempt.  After an exit the restart decision of
`monitorRestartDecision` is applied: on restart the status is set
`Stopped`, the lock dropped, a new child spawned unconditionally, and on
success the record is updated to `Running` with the new pid; otherwise the
record is left `Stopped` and the loop breaks. -/
def monitor_process_iter (procs : List (String × ProcessInfo)) (name : String)
    (shutdown_signal : Bool) (exitStatus : Option Int)
    (spawnResult : Option Nat) : MonitorStep :=
  match procs.lookup name with
  | none => ⟨procs, SpawnEvent.noSpawn, false⟩
  | some process =>
    match process.child_handle with
    | none => ⟨procs, SpawnEvent.noSpawn, false⟩
    | some _child =>
      match exitStatus with
      | none => ⟨procs, SpawnEvent.noSpawn, true⟩
      | some _code =>
        let decision := monitorRestartDecision process.restart_policy
          process.restart_count
        let process1 : ProcessInfo :=
          { process with restart_count := decision.2 }
        if decision.1 then
          let procs1 := insertAL procs name
            { process1 with status := ProcessStatus.Stopped }
          match spawnResult with
          | some newPid =>
            let procs2 :=
              match procs1.lookup name with
              | some p2 =>
                insertAL procs1 name
                  { p2 with
                    pid := some newPid
                    child_handle := some newPid
                    status := ProcessStatus.Running }
              | none => procs1
            ⟨procs2, SpawnEvent.spawnAttempted true, true⟩
          | none => ⟨procs1, SpawnEvent.spawnAttempted false, true⟩
        else
          ⟨insertAL procs name { process1 with status := ProcessStatus.Stopped },
            SpawnEvent.noSpawn, false⟩

/-! ## Unhandled-exception filter (`src/exception_handler.rs`) -/

/-- Windows exception code `EXCEPTION_STACK_OVERFLOW`. -/
def EXCEPTION_STACK_OVERFLOW : Nat := 0xC00000FD

/-- Windows exception code `EXCEPTION_NONCONTINUABLE_EXCEPTION`. -/
def EXCEPTION_NONCONTINUABLE_EXCEPTION : Nat := 0xC0000025

/-- What the process-wide filter does after handling a record. -/
inductive FilterOutcome where
  | terminate (exitCode : Nat)
  | continueSearch
deriving DecidableEq

/-- Observable result of `unhandled_exception_filter` on a non-null
exception record: the incremented global exception counter, whether the
record was logged at error level, and the disposition. -/
structure FilterResult where
  newCount : Nat
  logged : Bool
  outcome : FilterOutcome
deriving DecidableEq

/-- `unhandled_exception_filter` from `exception_handler.rs`, on a
non-null record with exception code `code`, with `count` the prior value
of the global exception counter (a `u32` bumped with wrapping
`fetch_add`).  Every delivered record is logged; stack-overflow and
noncontinuable codes then terminate the process with exit code 1, every
other code falls through to `EXCEPTION_CONTINUE_SEARCH`. -/
def unhandled_exception_filter (count : Nat) (code : Nat) : FilterResult :=
  { newCount := (count + 1) % 4294967296
    logged := true
    outcome :=
      if code = EXCEPTION_STACK_OVERFLOW ∨
          code = EXCEPTION_NONCONTINUABLE_EXCEPTION then
        FilterOutcome.terminate 1
      else FilterOutcome.continueSearch }

/-! ## Signal handler (`src/signal_handler.rs`) -/

/-- `SignalType` from `signal_handler.rs`. -/
inductive SignalType where
  | CtrlC
  | CtrlBreak
  | ConsoleClose
  | UserLogoff
  | SystemShutdown
  | Unknown
deriving DecidableEq

/-- `SignalType::is_immediate_exit`. -/
def SignalType.is_immediate_exit : SignalType → Bool
  | .ConsoleClose => true
  | .UserLogoff => true
  | .SystemShutdown => true
  | _ => false

/-- The process-global state of `signal_handler.rs`: `SHUTDOWN_FLAG`,
`GRACEFUL_SHUTDOWN_STARTED` and `SHUTDOWN_START_TIME` (UNIX seconds). -/
structure SignalState where
  shutdown_flag : Bool
  graceful_started : Bool
  shutdown_start_time : Nat
deriving DecidableEq

/-- Which watchdog thread the handler spawned during one invocation. -/
inductive MonitorStart where
  | idle
  | graceful
  | forced
deriving DecidableEq

/-- `console_ctrl_handler` from `signal_handler.rs` at wall-clock second
`currentTime`: always set the shutdown flag; on the first signal record
the start time and start the forced watchdog for immediate-exit signals or
the graceful watchdog otherwise; on a subsequent signal start the forced
watchdog exactly when more than 5 seconds have passed since the first
(`saturating_sub` of the stored start time). -/
def console_ctrl_handler (st : SignalState) (signal : SignalType)
    (currentTime : Nat) : SignalState × MonitorStart :=
  let st1 : SignalState := { st with shutdown_flag := true }
  if st1.graceful_started = false then
    let st2 : SignalState :=
      { st1 with graceful_started := true, shutdown_start_time := currentTime }
    if signal.is_immediate_exit then (st2, MonitorStart.forced)
    else (st2, MonitorStart.graceful)
  else
    let elapsed := currentTime - st1.shutdown_start_time
    if 5 < elapsed then (st1, MonitorStart.forced)
    else (st1, MonitorStart.idle)

/-! ## Configuration parser (`src/config_parser.rs`) -/

/-- `ProcessRestartPolicy` from `config_parser.rs` (rational seconds). -/
structure ProcessRestartPolicy where
  max_restarts : Nat
  restart_delay : ℚ
  backoff_multiplier : ℚ
  max_restart_delay : ℚ
deriving DecidableEq

/-- `impl Default for ProcessRestartPolicy`. -/
def ProcessRestartPolicy.default : ProcessRestartPolicy :=
  { max_restarts := 3
    restart_delay := 2
    backoff_multiplier := 2
    max_restart_delay := 60 }

/-- `ProcessConfig` from `config_parser.rs`, with strings as `List Char`. -/
structure ProcessConfig where
  name : List Char
  executable_path : List Char
  working_directory : List Char
  arguments : List (List Char)
  restart_policy : ProcessRestartPolicy
  environment_vars : List (List Char × List Char)

/-- The ambient filesystem facts `ProcessConfig::new` and the extended
parser read from the OS: the platform, `parent_dir.join(name)` for the
default working directory, and `current_dir.join(rel)` for relative
working directories. -/
structure Env where
  is_windows : Bool
  parent_join : List Char → List Char
  current_dir_join : List Char → List Char

/-- `ProcessConfig::new`: defaults inferred from the name — executable
`name` plus platform suffix, working directory the sibling of the current
directory named `name`, no arguments, default restart policy, empty
environment. -/
def ProcessConfig.new (env : Env) (name : List Char) : ProcessConfig :=
  { name := name
    executable_path :=
      if env.is_windows then name ++ ['.', 'e', 'x', 'e'] else name
    working_directory := env.parent_join name
    arguments := []
    restart_policy := ProcessRestartPolicy.default
    environment_vars := [] }

/-- `ConfigParser::parse_simple_format`: the whole (re-trimmed) line is
the process name; an empty name yields no entry. -/
def parse_simple_format (env : Env) (line : List Char) (_lineNo : Nat) :
    Except String (Option ProcessConfig) :=
  let process_name := trim line
  if process_name = [] then .ok none
  else .ok (some (ProcessConfig.new env process_name))

/-- `ConfigParser::parse_extended_format`: split the line on `:` into
`name : executable : working_directory : arguments : max_restarts`; each
trailing field may be missing or empty, in which case the default from
`ProcessConfig::new` stands.  An empty name or a non-numeric
`max_restarts` is a parse error naming the line. -/
def parse_extended_format (env : Env) (line : List Char) (lineNo : Nat) :
    Except String (Option ProcessConfig) :=
  let parts := splitChar ':' line
  if parts.length < 2 then
    .error s!"line {lineNo}: extended format needs a name and an executable"
  else
    let process_name := trim (parts.getD 0 [])
    if process_name = [] then
      .error s!"line {lineNo}: process name must not be empty"
    else
      let config := ProcessConfig.new env process_name
      let config :=
        if 1 < parts.length ∧ trim (parts.getD 1 []) ≠ [] then
          { config with executable_path := trim (parts.getD 1 []) }
        else config
      let config :=
        if 2 < parts.length ∧ trim (parts.getD 2 []) ≠ [] then
          let working_dir := trim (parts.getD 2 [])
          let working_dir :=
            if working_dir = ['.'] then config.working_directory
            else if startsWithChars ['.', '.', '/'] working_dir ∨
                startsWithChars ['.', '/'] working_dir then
              env.current_dir_join working_dir
            else working_dir
          { config with working_directory := working_dir }
        else config
      let config :=
        if 3 < parts.length ∧ trim (parts.getD 3 []) ≠ [] then
          { config with arguments := splitWS (trim (parts.getD 3 [])) }
        else config
      if 4 < parts.length ∧ trim (parts.getD 4 []) ≠ [] then
        match parseU32 (trim (parts.getD 4 [])) with
        | some max_restarts =>
          .ok (some
            { config with
              restart_policy :=
                { ProcessRestartPolicy.default with max_restarts := max_restarts } })
        | none => .error s!"line {lineNo}: max restarts must be a number"
      else .ok (some config)

/-- `ConfigParser::parse_line`: trim, drop empty and `#`-comment lines,
then dispatch on the presence of `:` to the extended or simple format. -/
def parse_line (env : Env) (line : List Char) (lineNo : Nat) :
    Except String (Option ProcessConfig) :=
  let line := trim line
  if line = [] then .ok none
  else if startsWithChars ['#'] line then .ok none
  else if containsChar ':' line then parse_extended_format env line lineNo
  else parse_simple_format env line lineNo

/-! ## Helper lemmas -/

/-- Looking up the key just inserted by `insertAL` yields the new value. -/
theorem lookup_insertAL {κ α : Type} [DecidableEq κ] [BEq κ] [LawfulBEq κ]
    (m : List (κ × α)) (k : κ) (v : α) : (insertAL m k v).lookup k = some v := by
  simp [insertAL, List.lookup]

/-- Dropping a matched initial segment never lengthens a list. -/
theorem length_dropWhile_le' (p : Char → Bool) (l : List Char) :
    (l.dropWhile p).length ≤ l.length := by
  induction l with
  | nil => simp
  | cons x xs ih =>
    rw [List.dropWhile_cons]
    by_cases hx : p x = true
    · rw [if_pos hx]
      simp only [List.length_cons]
      omega
    · rw [if_neg hx]

/-- A cons headed by a non-whitespace character is fixed by `trimLeft`. -/
theorem trimLeft_cons_not_ws {c : Char} {l : List Char} (h : isWS c = false) :
    trimLeft (c :: l) = c :: l := by
  simp [trimLeft, List.dropWhile_cons, h]

/-- If `trimLeft` fixes a cons, its head is not whitespace. -/
theorem trimLeft_fixed_head {c : Char} {rest : List Char}
    (h : trimLeft (c :: rest) = c :: rest) : isWS c = false := by
  cases hw : isWS c with
  | false => rfl
  | true =>
    exfalso
    unfold trimLeft at h
    rw [List.dropWhile_cons, if_pos hw] at h
    have hlen := congrArg List.length h
    have hle := length_dropWhile_le' isWS rest
    simp only [List.length_cons] at hlen
    omega

/-- A list ending in a non-whitespace character is fixed by `trimRight`. -/
theorem trimRight_append_last {l : List Char} {c : Char} (h : isWS c = false) :
    trimRight (l ++ [c]) = l ++ [c] := by
  unfold trimRight
  rw [List.reverse_append]
  simp [List.dropWhile_cons, h]

/-- Splitting `m ++ [sep]` when `m` holds no separator gives the two
fields `m` and the empty tail. -/
theorem splitPred_append_sep {p : Char → Bool} {m : List Char} {c : Char}
    (hm : ∀ x ∈ m, p x = false) (hc : p c = true) :
    splitPred p (m ++ [c]) = [m, []] := by
  induction m with
  | nil => simp [splitPred, hc]
  | cons x xs ih =>
    have hx : p x = false := hm x (by simp)
    have ih2 := ih (fun y hy => hm y (by simp [hy]))
    simp [splitPred, hx, ih2]

/-! ## Claim theorems -/

/-- A restart-decision predicate written from the specification sentence
for comparison with the code: should restart iff the policy is unbounded
or the prior restart count is strictly below `max_restarts`. -/
def specShouldRestart (policy : RestartPolicy) (prior : Nat) : Bool :=
  match policy with
  | .Infinite => true
  | .Limited max_restarts => decide (prior < max_restarts)

/-- C1 counterexample: at policy `Limited 1` with prior restart count 0 the
specified predicate permits a restart (0 < 1) but the child-monitor code,
which increments before comparing, refuses it. -/
theorem restart_decision_counterexample :
    specShouldRestart (RestartPolicy.Limited 1) 0 = true ∧
      (monitorRestartDecision (RestartPolicy.Limited 1) 0).1 = false := by
  decide

/-- C1 (amended): the thread restart manager decides exactly
`prior count < max_restarts` (its policy has no unbounded variant), while
the child-process monitor first increments the counter and compares the
incremented value, so `Limited k` permits a restart at prior count `n`
exactly when `n < k - 1` — `k - 1` restarts in total, none for
`Limited 0` and `Limited 1`; `Infinite` always permits. -/
theorem restart_decision_characterization :
    (∀ (mgr : ThreadRestartManager) (name : String),
        mgr.can_restart name = true ↔
          getCount mgr.restart_counts name < mgr.policy.max_restarts) ∧
    (∀ n : Nat, (monitorRestartDecision RestartPolicy.Infinite n).1 = true) ∧
    (∀ k n : Nat, n + 1 < 4294967296 →
        ((monitorRestartDecision (RestartPolicy.Limited k) n).1 = true ↔
          n < k - 1)) := by
  refine ⟨?_, ?_, ?_⟩
  · intro mgr name
    simp [ThreadRestartManager.can_restart]
  · intro n
    rfl
  · intro k n h
    simp only [monitorRestartDecision, decide_eq_true_eq]
    rw [Nat.mod_eq_of_lt h]
    omega

/-- C1 witness: at `Limited 3` and prior count 0 a restart is permitted. -/
theorem restart_decision_characterization_witness :
    (monitorRestartDecision (RestartPolicy.Limited 3) 0).1 = true :=
  (restart_decision_characterization.2.2 3 0 (by decide)).mpr (by decide)

/-- C2: for every policy and prior count `n` (below the `u32`/`i32` wrap
threshold, which any reachable counter satisfies) the recorded backoff
delay equals `min(max_delay, base_delay * multiplier^n)` and in particular
never exceeds `max_delay`. -/
theorem record_restart_delay_formula :
    ∀ (mgr : ThreadRestartManager) (name : String) (now : Nat),
      getCount mgr.restart_counts name < 2147483648 →
      (mgr.record_restart name now).2 =
          min mgr.policy.max_restart_delay
            (mgr.policy.restart_delay *
              mgr.policy.backoff_multiplier ^ getCount mgr.restart_counts name) ∧
        (mgr.record_restart name now).2 ≤ mgr.policy.max_restart_delay := by
  intro mgr name now h
  have h1 : (getCount mgr.restart_counts name + 1) % 4294967296 =
      getCount mgr.restart_counts name + 1 := Nat.mod_eq_of_lt (by omega)
  have h2 : u32sub (getCount mgr.restart_counts name + 1) 1 =
      getCount mgr.restart_counts name := by
    unfold u32sub
    omega
  have h3 : toI32 (getCount mgr.restart_counts name) =
      (getCount mgr.restart_counts name : Int) := by
    unfold toI32
    rw [Nat.mod_eq_of_lt (by omega)]
    rw [if_pos (by omega)]
  simp only [ThreadRestartManager.record_restart, h1, h2, h3, zpow_natCast]
  exact ⟨min_comm _ _, min_le_right _ _⟩

/-- C2 witness: with the default thread policy and a fresh thread name the
computed delay is bounded by the 60-second cap. -/
theorem record_restart_delay_formula_witness :
    ((ThreadRestartManager.mk [] [] (ThreadRestartPolicy.mk 5 1 2 60)).record_restart
        "w" 0).2 ≤ 60 :=
  (record_restart_delay_formula
    (ThreadRestartManager.mk [] [] (ThreadRestartPolicy.mk 5 1 2 60)) "w" 0
    (by decide)).2

/-- C5: the unhandled-exception filter logs every delivered record,
terminates the process with exit code 1 exactly for the stack-overflow and
noncontinuable-exception codes, and returns continue-search for every
other code. -/
theorem filter_terminates_exactly_on_fatal :
    ∀ count code : Nat,
      ((unhandled_exception_filter count code).outcome =
          FilterOutcome.terminate 1 ↔
        code = EXCEPTION_STACK_OVERFLOW ∨
          code = EXCEPTION_NONCONTINUABLE_EXCEPTION) ∧
      (unhandled_exception_filter count code).logged = true ∧
      (¬(code = EXCEPTION_STACK_OVERFLOW ∨
          code = EXCEPTION_NONCONTINUABLE_EXCEPTION) →
        (unhandled_exception_filter count code).outcome =
          FilterOutcome.continueSearch) := by
  intro count code
  unfold unhandled_exception_filter
  by_cases h : code = EXCEPTION_STACK_OVERFLOW ∨
      code = EXCEPTION_NONCONTINUABLE_EXCEPTION
  · simp [h]
  · simp [h]

/-- C5 witness: an access violation (0xC0000005) is logged and falls
through to the system default handler. -/
theorem filter_terminates_exactly_on_fatal_witness :
    (unhandled_exception_filter 0 0xC0000005).outcome =
      FilterOutcome.continueSearch :=
  (filter_terminates_exactly_on_fatal 0 0xC0000005).2.2 (by decide)

/-- C7: if the shutdown flag is found set when re-checked after the
backoff sleep, the supervision loop exits without re-invoking the worker
body, whatever the body result, the prior status, the restart budget and
the earlier flag read were. -/
theorem flag_after_sleep_stops_reinvocation :
    ∀ (name : String) (st : ThreadStatus) (mgr : ThreadRestartManager)
      (result : Except String Unit) (flagAtDecision : Bool) (now : Nat),
      (superviseIter name st mgr result flagAtDecision true now).reinvoke =
        false := by
  intro name st mgr result f1 now
  cases result with
  | ok _ => rfl
  | error e =>
    unfold superviseIter
    by_cases h : (mgr.can_restart name && !f1) = true
    · simp [h]
    · cases hf : f1 <;> cases hc : mgr.can_restart name <;> simp [h, hf, hc]

/-- C8: on a signal received after shutdown has started, the handler
starts the forced-exit watchdog exactly when more than 5 seconds have
elapsed since the first signal. -/
theorem subsequent_signal_escalation :
    ∀ (st : SignalState) (signal : SignalType) (currentTime : Nat),
      st.graceful_started = true →
      ((console_ctrl_handler st signal currentTime).2 = MonitorStart.forced ↔
        5 < currentTime - st.shutdown_start_time) := by
  intro st sig t h
  unfold console_ctrl_handler
  simp only [h]
  by_cases h5 : 5 < t - st.shutdown_start_time <;> simp [h5]

/-- C8 witness: a second Ctrl+C ten seconds after the first escalates to
the forced watchdog. -/
theorem subsequent_signal_escalation_witness :
    (console_ctrl_handler ⟨true, true, 100⟩ SignalType.CtrlC 110).2 =
      MonitorStart.forced :=
  (subsequent_signal_escalation ⟨true, true, 100⟩ SignalType.CtrlC 110
    rfl).mpr (by decide)

/-- C10: for any worker id present in the registry, `stop_thread`
rewrites the record to status `Stopped` with the shutdown flag set and the
handle taken, regardless of the prior status (a `Failed` record included),
and the resulting registry state does not depend on whether the join
succeeded — the write happens before the join. -/
theorem stop_thread_overwrites_status :
    ∀ (threads : List (Nat × ThreadRec)) (tid : Nat) (joinOk : Bool)
      (info : ThreadRec),
      threads.lookup tid = some info →
      (stop_thread threads tid joinOk).1.lookup tid =
          some ⟨info.id, info.name, ThreadStatus.Stopped, true, false⟩ ∧
        (stop_thread threads tid joinOk).1 = (stop_thread threads tid true).1 := by
  intro threads tid joinOk info h
  obtain ⟨i1, i2, i3, i4, i5⟩ := info
  unfold stop_thread
  rw [h]
  cases i5 <;> simp [lookup_insertAL]

/-- C10 witness: stopping a worker whose status is the terminal `Failed`
overwrites the status with `Stopped`. -/
theorem stop_thread_overwrites_status_witness :
    (stop_thread [(7, ⟨7, "w", ThreadStatus.Failed, false, true⟩)] 7
        true).1.lookup 7 =
      some ⟨7, "w", ThreadStatus.Stopped, true, false⟩ :=
  (stop_thread_overwrites_status
    [(7, ⟨7, "w", ThreadStatus.Failed, false, true⟩)] 7 true
    ⟨7, "w", ThreadStatus.Failed, false, true⟩ rfl).1

/-- C3 counterexample: with the worker shutdown flag already set, a
monitor iteration that observes a child exit under an `Infinite` policy
still begins (and completes) a new OS child spawn. -/
theorem monitor_spawns_despite_shutdown_counterexample :
    (monitor_process_iter
        [("a", ⟨"a", "cmd", [], ProcessStatus.Running, some 1, some 1,
          RestartPolicy.Infinite, 0⟩)]
        "a" true (some 0) (some 2)).spawn = SpawnEvent.spawnAttempted true := by
  rfl

/-- C3 (amended): the child-monitor body discards the shutdown signal it
is handed, so no spawn it performs is preceded by a shutdown-flag check:
every monitor iteration — including its respawn decision — is entirely
independent of the flag value. -/
theorem monitor_ignores_shutdown_flag :
    ∀ (procs : List (String × ProcessInfo)) (name : String) (f1 f2 : Bool)
      (exitStatus : Option Int) (spawnResult : Option Nat),
      monitor_process_iter procs name f1 exitStatus spawnResult =
        monitor_process_iter procs name f2 exitStatus spawnResult :=
  fun _ _ _ _ _ _ => rfl

/-- C4 counterexample: a worker body returning cleanly while its record is
in status `Running` leaves the status `Running` — the loop exits but the
status is not set to `Stopped`. -/
theorem clean_return_keeps_status_counterexample :
    (superviseIter "w" ThreadStatus.Running
        (ThreadRestartManager.mk [] [] (ThreadRestartPolicy.mk 5 1 2 60))
        (Except.ok ()) false false 0).status = ThreadStatus.Running ∧
      ThreadStatus.Running ≠ ThreadStatus.Stopped :=
  ⟨rfl, by decide⟩

/-- C4 (amended): on a clean body return the supervision loop exits
without re-invoking the body and without writing any status or touching
the restart manager; the record keeps whatever status it had. -/
theorem clean_return_exits_without_status_write :
    ∀ (name : String) (st : ThreadStatus) (mgr : ThreadRestartManager)
      (f1 f2 : Bool) (now : Nat),
      superviseIter name st mgr (Except.ok ()) f1 f2 now =
        ⟨st, mgr, false⟩ :=
  fun _ _ _ _ _ _ => rfl

/-- C6 counterexample: a registry already holding a process named `a`
(status `Stopped`) accepts a second `start_process` for the same name; the
old record is replaced by a fresh `Running` one. -/
theorem duplicate_name_start_succeeds_counterexample :
    start_process
        [("a", ⟨"a", "cmd", [], ProcessStatus.Stopped, none, none,
          RestartPolicy.Limited 3, 0⟩)]
        "a" "cmd" [] (RestartPolicy.Limited 3) (some 5) =
      Except.ok [("a", ⟨"a", "cmd", [], ProcessStatus.Running, some 5, some 5,
        RestartPolicy.Limited 3, 0⟩)] := by
  rfl

/-- C6 (amended): `start_process` rejects a duplicate name only while the
existing record has status `Running`; with the existing record `Stopped`
the call succeeds and replaces it.  The thread registry performs no name
check at all: `create_thread_with_restart` succeeds (given the OS thread
spawn succeeds) whatever names the registry already holds. -/
theorem start_process_rejects_only_running :
    ∀ (procs : List (String × ProcessInfo)) (name command : String)
      (args : List String) (policy : RestartPolicy) (pid : Nat)
      (existing : ProcessInfo),
      procs.lookup name = some existing →
      ((existing.status = ProcessStatus.Running →
          start_process procs name command args policy (some pid) =
            Except.error "process is already running") ∧
        (existing.status = ProcessStatus.Stopped →
          start_process procs name command args policy (some pid) =
            Except.ok (insertAL procs name
              ⟨name, command, args, ProcessStatus.Running, some pid, some pid,
                policy, 0⟩))) ∧
        (∀ (st : ThreadManagerState) (tname : String),
          create_thread_with_restart st tname true =
            Except.ok
              ({ st with
                  threads := insertAL st.threads
                    (st.next_thread_id % 18446744073709551616)
                    ⟨st.next_thread_id % 18446744073709551616, tname,
                      ThreadStatus.Created, false, true⟩
                  next_thread_id :=
                    (st.next_thread_id + 1) % 18446744073709551616 },
                st.next_thread_id % 18446744073709551616)) := by
  intro procs name command args policy pid existing h
  refine ⟨⟨?_, ?_⟩, ?_⟩
  · intro hrun
    unfold start_process
    rw [h]
    simp [hrun]
  · intro hstop
    unfold start_process
    rw [h]
    simp [hstop]
  · intro st tname
    rfl

/-- C6 witness: a duplicate of a `Running` process is rejected. -/
theorem start_process_rejects_only_running_witness :
    start_process
        [("a", ⟨"a", "cmd", [], ProcessStatus.Running, some 1, some 1,
          RestartPolicy.Limited 3, 0⟩)]
        "a" "cmd" [] (RestartPolicy.Limited 3) (some 5) =
      Except.error "process is already running" :=
  ((start_process_rejects_only_running
    [("a", ⟨"a", "cmd", [], ProcessStatus.Running, some 1, some 1,
      RestartPolicy.Limited 3, 0⟩)]
    "a" "cmd" [] (RestartPolicy.Limited 3) 5
    ⟨"a", "cmd", [], ProcessStatus.Running, some 1, some 1,
      RestartPolicy.Limited 3, 0⟩ rfl).1.1 rfl)

/-- C9: for every (trimmed, nonempty) process name that holds no `:` and
does not open with the comment marker `#`, the extended-form config line
`name:` with every other field left empty parses to exactly the
`ProcessSpec` that the simple-form line consisting of the name alone
produces: the defaults of `ProcessConfig.new` in both cases. -/
theorem extended_default_equals_simple :
    ∀ (env : Env) (n : List Char) (lineNo lineNo2 : Nat),
      trimLeft n = n → trimRight n = n → n ≠ [] →
      containsChar ':' n = false → startsWithChars ['#'] n = false →
      parse_line env (n ++ [':']) lineNo =
          Except.ok (some (ProcessConfig.new env n)) ∧
        parse_line env n lineNo2 =
          Except.ok (some (ProcessConfig.new env n)) := by
  intro env n ln1 ln2 hl hr hne hcolon hhash
  obtain ⟨c, rest, rfl⟩ : ∃ c rest, n = c :: rest := by
    cases n with
    | nil => exact absurd rfl hne
    | cons c rest => exact ⟨c, rest, rfl⟩
  have hcw : isWS c = false := trimLeft_fixed_head hl
  have htrim : trim (c :: rest) = c :: rest := by rw [trim, hl, hr]
  have hhc : decide ('#' = c) = false := by
    simpa [startsWithChars] using hhash
  have hmem : ∀ x ∈ c :: rest, decide (x = ':') = false := by
    intro x hx
    cases hd : decide (x = ':') with
    | false => rfl
    | true =>
      exfalso
      have : containsChar ':' (c :: rest) = true := by
        simp only [containsChar, List.any_eq_true]
        exact ⟨x, hx, hd⟩
      rw [this] at hcolon
      exact absurd hcolon (by decide)
  have hsplit : splitChar ':' ((c :: rest) ++ [':']) = [c :: rest, []] := by
    unfold splitChar
    exact splitPred_append_sep hmem (by simp)
  have htrimext : trim ((c :: rest) ++ [':']) = (c :: rest) ++ [':'] := by
    rw [trim, List.cons_append, trimLeft_cons_not_ws hcw, ← List.cons_append]
    exact trimRight_append_last (by decide)
  constructor
  · unfold parse_line
    rw [htrimext]
    rw [if_neg (by simp)]
    rw [if_neg (by simp [startsWithChars, hhc])]
    rw [if_pos (by simp [containsChar])]
    unfold parse_extended_format
    rw [hsplit]
    rw [if_neg (by simp)]
    simp only [List.getD_cons_zero]
    rw [htrim, if_neg (by simp)]
    have hgd1 : ([c :: rest, []].getD 1 []) = ([] : List Char) := rfl
    have hgd2 : ([c :: rest, []].getD 2 []) = ([] : List Char) := rfl
    have hgd3 : ([c :: rest, []].getD 3 []) = ([] : List Char) := rfl
    have hgd4 : ([c :: rest, []].getD 4 []) = ([] : List Char) := rfl
    rw [hgd1, hgd2, hgd3, hgd4]
    have htn : trim ([] : List Char) = [] := rfl
    rw [htn]
    rw [if_neg (by simp)]
    rw [if_neg (by simp)]
    rw [if_neg (by simp)]
    rw [if_neg (by simp)]
  · unfold parse_line
    rw [htrim]
    rw [if_neg (by simp)]
    rw [if_neg (by simp [startsWithChars, hhc])]
    rw [if_neg (by simp [hcolon])]
    unfold parse_simple_format
    rw [htrim]
    rw [if_neg (by simp)]

/-- C9 witness: the name `app` parses identically in both forms. -/
theorem extended_default_equals_simple_witness :
    parse_line ⟨true, fun l => l, fun l => l⟩ (['a', 'p', 'p'] ++ [':']) 1 =
        Except.ok (some (ProcessConfig.new ⟨true, fun l => l, fun l => l⟩
          ['a', 'p', 'p'])) ∧
      parse_line ⟨true, fun l => l, fun l => l⟩ ['a', 'p', 'p'] 2 =
        Except.ok (some (ProcessConfig.new ⟨true, fun l => l, fun l => l⟩
          ['a', 'p', 'p'])) :=
  extended_default_equals_simple ⟨true, fun l => l, fun l => l⟩
    ['a', 'p', 'p'] 1 2 rfl rfl (by decide) rfl rfl

end WeiDaemon
